import Mathlib

/-!
Verification of the Order Processing & Sales Aggregation engine of a
restaurant point-of-sale backend (`backend/server.py`).

The relevant Python code is shallowly embedded:
* monetary amounts (`float` fields holding decimal money values) as `ℚ`;
* quantities (Python `int`) as `ℤ`;
* UTC timestamps (`datetime` values, stored as ISO strings and compared by
  MongoDB with `$gte`/`$lt`, which on the fixed ISO format agrees with
  chronological order) as a `DateTime` record with lexicographic comparison;
* the `orders` collection as a `List Order` in insertion order, an append
  on `insert_one`;
* a handler that can raise `HTTPException` as an `Except String` result;
* the generated `uuid` and `datetime.now` of a request as explicit
  parameters of the handler.
-/

namespace Kasir

/-- Embedding of a (timezone-aware UTC) `datetime.datetime` value:
the seven calendar/time fields. -/
structure DateTime where
  year : Int
  month : Nat
  day : Nat
  hour : Nat
  minute : Nat
  second : Nat
  microsecond : Nat
deriving Repr, DecidableEq

/-- Gregorian leap-year rule, as used by Python's `datetime` validation. -/
def isLeapYear (y : Int) : Bool :=
  (y % 4 == 0 && y % 100 != 0) || (y % 400 == 0)

/-- Number of days in a month, as used by Python's `datetime` validation. -/
def daysInMonth (y : Int) (m : Nat) : Nat :=
  if m = 2 then (if isLeapYear y then 29 else 28)
  else if m = 4 ∨ m = 6 ∨ m = 9 ∨ m = 11 then 30
  else 31

/-- Embedding of `d.replace(day=newDay)`: Python raises `ValueError` when the
new day is out of range for the month, which we model as `none`. -/
def DateTime.replaceDay (d : DateTime) (newDay : Nat) : Option DateTime :=
  if 1 ≤ newDay ∧ newDay ≤ daysInMonth d.year d.month then
    some { d with day := newDay }
  else
    none

/-- Embedding of `d.replace(hour=0, minute=0, second=0, microsecond=0)`
(always valid, no error case). -/
def DateTime.midnight (d : DateTime) : DateTime :=
  { d with hour := 0, minute := 0, second := 0, microsecond := 0 }

/-- Strict chronological comparison of two UTC datetimes (lexicographic on
the fields; this is what MongoDB's `$lt` on the stored ISO strings computes
for well-formed UTC timestamps). -/
def dtLtB (a b : DateTime) : Bool :=
  if a.year ≠ b.year then decide (a.year < b.year)
  else if a.month ≠ b.month then decide (a.month < b.month)
  else if a.day ≠ b.day then decide (a.day < b.day)
  else if a.hour ≠ b.hour then decide (a.hour < b.hour)
  else if a.minute ≠ b.minute then decide (a.minute < b.minute)
  else if a.second ≠ b.second then decide (a.second < b.second)
  else decide (a.microsecond < b.microsecond)

/-- Non-strict chronological comparison (MongoDB's `$gte`, flipped). -/
def dtLeB (a b : DateTime) : Bool :=
  dtLtB a b || decide (a = b)

/-- Embedding of the `CartItem` pydantic model. -/
structure CartItem where
  menu_item_id : String
  quantity : Int
  price : ℚ
  name : String
deriving Repr, DecidableEq

/-- Embedding of the `User` pydantic model, restricted to the fields the
order routes can observe (password hash and creation time never flow into
an order). -/
structure User where
  id : String
  username : String
  name : String
  role : String
deriving Repr, DecidableEq

/-- Embedding of the `OrderCreate` request body: note it carries a
caller-supplied `total_amount` and no change field. -/
structure OrderCreate where
  items : List CartItem
  total_amount : ℚ
  cash_received : ℚ
  cashier_id : String
  cashier_name : String
deriving Repr, DecidableEq

/-- Embedding of the stored `Order` model. `id` and `order_date` are the
generated defaults (`uuid4`, `datetime.now(timezone.utc)`), made explicit. -/
structure Order where
  id : String
  items : List CartItem
  total_amount : ℚ
  payment_method : String
  cash_received : ℚ
  change_amount : ℚ
  cashier_id : String
  cashier_name : String
  order_date : DateTime
  status : String
deriving Repr, DecidableEq

/-- Sum of line-item subtotals (price × quantity) of a list of cart items.
`create_order` never computes this; it is the reference value the spec
talks about. -/
def lineItemsTotal (items : List CartItem) : ℚ :=
  (items.map (fun it => it.price * (it.quantity : ℚ))).sum

/-- Embedding of the `POST /api/orders` handler `create_order`.
The generated uuid `genId` and the request time `now` are parameters;
`current_user` is the authenticated caller (resolved by `get_current_user`
before the body runs). The body computes
`change_amount = cash_received - total_amount`, raises HTTP 400 when it is
negative, and otherwise builds the `Order` from the request body. -/
def create_order (current_user : User) (order_create : OrderCreate)
    (genId : String) (now : DateTime) : Except String Order :=
  let _ := current_user
  let change_amount := order_create.cash_received - order_create.total_amount
  if change_amount < 0 then
    Except.error "Uang yang diterima kurang dari total"
  else
    Except.ok
      { id := genId
        items := order_create.items
        total_amount := order_create.total_amount
        payment_method := "cash"
        cash_received := order_create.cash_received
        change_amount := change_amount
        cashier_id := order_create.cashier_id
        cashier_name := order_create.cashier_name
        order_date := now
        status := "completed" }

/-- `create_order` together with its effect on the `orders` collection:
on success the record is appended (`insert_one`), on failure the collection
is untouched (the raise happens before the insert). -/
def submitTransaction (log : List Order) (current_user : User)
    (order_create : OrderCreate) (genId : String) (now : DateTime) :
    List Order × Except String Order :=
  match create_order current_user order_create genId now with
  | Except.error e => (log, Except.error e)
  | Except.ok o => (log ++ [o], Except.ok o)

/-- Embedding of the day-window computation shared by `get_today_orders`
and `get_dashboard_stats`:
`today = now.replace(hour=0, minute=0, second=0, microsecond=0)` and
`tomorrow = today.replace(day=today.day + 1)` (which can raise). -/
def todayWindow (now : DateTime) : Option (DateTime × DateTime) :=
  match now.midnight.replaceDay (now.midnight.day + 1) with
  | none => none
  | some tomorrow => some (now.midnight, tomorrow)

/-- Membership test of the MongoDB window filter
`{"order_date": {"$gte": s, "$lt": e}}`. -/
def inWindow (s e t : DateTime) : Bool :=
  dtLeB s t && dtLtB t e

/-- The orders returned by the window query of `get_today_orders`:
`db.orders.find({"order_date": {"$gte": s, "$lt": e}}).to_list(1000)` —
the matching documents, truncated by `to_list(1000)` to the first 1000. -/
def ordersInWindow (log : List Order) (s e : DateTime) : List Order :=
  (log.filter (fun o => inWindow s e o.order_date)).take 1000

/-- `sum(order["total_amount"] for order in orders)`. -/
def total_revenue (orders : List Order) : ℚ :=
  (orders.map Order.total_amount).sum

/-- One update step of the `item_count` dict in `get_today_orders`:
`if name in item_count: item_count[name] += quantity else: item_count[name] = quantity`.
A Python dict preserves insertion order, so it is embedded as an
association list where a new key is appended at the end and an existing
key is updated in place. -/
def bump : List (String × Int) → String → Int → List (String × Int)
  | [], n, q => [(n, q)]
  | p :: rest, n, q =>
    if p.1 = n then (p.1, p.2 + q) :: rest else p :: bump rest n q

/-- The `item_count` dict built by the nested loops of `get_today_orders`:
`for order in orders: for item in order["items"]: ...`. -/
def item_count (orders : List Order) : List (String × Int) :=
  orders.foldl (fun acc o => o.items.foldl (fun a it => bump a it.name it.quantity) acc) []

/-- The inner loop of `item_count`: feed one list of items into the dict. -/
def stepItems (acc : List (String × Int)) (its : List CartItem) : List (String × Int) :=
  its.foldl (fun a it => bump a it.name it.quantity) acc

/-- The sort key relation of
`sorted(item_count.items(), key=lambda x: x[1], reverse=True)`:
descending by quantity. -/
def descOrder (a b : String × Int) : Prop := b.2 ≤ a.2

instance : DecidableRel descOrder := fun a b =>
  inferInstanceAs (Decidable (b.2 ≤ a.2))

instance : IsTotal (String × Int) descOrder :=
  ⟨fun a b => (le_total b.2 a.2).imp id id⟩

instance : IsTrans (String × Int) descOrder :=
  ⟨fun _ _ _ hab hbc => le_trans hbc hab⟩

/-- Python's `sorted` is a stable sort; on this key it coincides with
insertion sort by the same relation (any two stable sorts of the same
comparison agree). -/
def sortedCounts (orders : List Order) : List (String × Int) :=
  List.insertionSort descOrder (item_count orders)

/-- The `popular_items` list of `get_today_orders`: the sorted entries
truncated to the first 5. -/
def popular_items (orders : List Order) : List (String × Int) :=
  (sortedCounts orders).take 5

/-- The `all_time` part of `get_dashboard_stats`:
`all_orders = await db.orders.find().to_list(1000)` followed by
`len(all_orders)` and `sum(order["total_amount"] for order in all_orders)`.
`to_list(1000)` truncates the cursor to the first 1000 documents. -/
def all_time_stats (log : List Order) : Nat × ℚ :=
  let all_orders := log.take 1000
  (all_orders.length, total_revenue all_orders)

/-- Repeated submissions: each element is one request
(authenticated user, body, generated id, request time); the log threads
through. -/
def submitMany (log : List Order) :
    List (User × OrderCreate × String × DateTime) → List Order
  | [] => log
  | (u, oc, gid, t) :: rest =>
    submitMany (submitTransaction log u oc gid t).1 rest

/-- All line items of a list of orders, in scan order. -/
def flatItems (orders : List Order) : List CartItem :=
  (orders.map Order.items).flatten

/-- Total quantity carried by the items named `m` in a list of items. -/
def qtySum (its : List CartItem) (m : String) : Int :=
  (its.map (fun it => if it.name = m then it.quantity else 0)).sum

/-- Modelled from the spec: the cumulative quantity of the item named `m`
over every line item of a list of orders ("build a mapping from item
display name to cumulative quantity by scanning every line item of every
transaction in the window"). Used to compare `item_count` against the
spec's wording. -/
def spec_cumulative_qty (orders : List Order) (m : String) : Int :=
  qtySum (flatItems orders) m

/-- Boolean test that an entry of the popularity mapping carries the
quantity `q`. -/
def qtyEq (q : Int) (p : String × Int) : Bool :=
  decide (p.2 = q)

/-- Value stored under key `m` in an association list (total over all
entries carrying the key; for a duplicate-free list this is the unique
value, or 0 when the key is absent). -/
def countQty : List (String × Int) → String → Int
  | [], _ => 0
  | p :: rest, m => (if p.1 = m then p.2 else 0) + countQty rest m

/-- The keys of an association list, in order. -/
def keys (l : List (String × Int)) : List String :=
  l.map Prod.fst

/-- First-occurrence subsequence of a list of names: the insertion order
of the keys of a Python dict fed those names. -/
def firstSeen (names : List String) : List String :=
  names.foldl (fun acc n => if n ∈ acc then acc else acc ++ [n]) []

/-- The record `create_order` builds on the success path, named for reuse
in lemmas. -/
def builtOrder (oc : OrderCreate) (gid : String) (t : DateTime) : Order :=
  { id := gid
    items := oc.items
    total_amount := oc.total_amount
    payment_method := "cash"
    cash_received := oc.cash_received
    change_amount := oc.cash_received - oc.total_amount
    cashier_id := oc.cashier_id
    cashier_name := oc.cashier_name
    order_date := t
    status := "completed" }

/- Concrete request data used by witnesses and counterexamples. -/

def demoUser : User :=
  { id := "u1", username := "kasir", name := "Kasir Utama", role := "kasir" }

def demoUser2 : User :=
  { id := "u2", username := "admin", name := "Administrator", role := "admin" }

def t0 : DateTime := ⟨2024, 1, 15, 10, 0, 0, 0⟩

def t1 : DateTime := ⟨2024, 1, 15, 11, 30, 0, 0⟩

/-- A well-formed candidate: line items sum to the supplied total. -/
def ocValid : OrderCreate :=
  { items := [⟨"m1", 2, 25000, "Nasi Goreng Seafood"⟩, ⟨"m2", 1, 20000, "Soto Ayam"⟩]
    total_amount := 70000
    cash_received := 100000
    cashier_id := "u1"
    cashier_name := "Kasir Utama" }

/-- A candidate whose supplied total (999) disagrees with its line items
(which sum to 10). -/
def ocMismatch : OrderCreate :=
  { items := [⟨"m1", 1, 10, "Nasi Goreng Seafood"⟩]
    total_amount := 999
    cash_received := 1000
    cashier_id := "u1"
    cashier_name := "Kasir Utama" }

/-- A candidate with an empty line-item sequence. -/
def ocEmptyItems : OrderCreate :=
  { items := []
    total_amount := 0
    cash_received := 0
    cashier_id := "u1"
    cashier_name := "Kasir Utama" }

/-- A candidate whose cash (0) is below the line-item total (100) but
matches the supplied total (0). -/
def ocUnderpaid : OrderCreate :=
  { items := [⟨"m1", 1, 100, "Nasi Goreng Seafood"⟩]
    total_amount := 0
    cash_received := 0
    cashier_id := "u1"
    cashier_name := "Kasir Utama" }

/-- A candidate with cash 20 above both the supplied total (5) and the
line-item total (10), but with the two totals distinct. -/
def ocGap : OrderCreate :=
  { items := [⟨"m1", 1, 10, "Nasi Goreng Seafood"⟩]
    total_amount := 5
    cash_received := 20
    cashier_id := "u1"
    cashier_name := "Kasir Utama" }

/-- A candidate with insufficient cash. -/
def ocPoor : OrderCreate :=
  { items := [⟨"m1", 2, 25000, "Nasi Goreng Seafood"⟩, ⟨"m2", 1, 20000, "Soto Ayam"⟩]
    total_amount := 70000
    cash_received := 50000
    cashier_id := "u1"
    cashier_name := "Kasir Utama" }

/-- A candidate with zero quantity, negative price and negative total. -/
def ocWeird : OrderCreate :=
  { items := [⟨"m1", 0, -3, "Nasi Goreng Seafood"⟩]
    total_amount := -1
    cash_received := -1
    cashier_id := "u1"
    cashier_name := "Kasir Utama" }

def ordValid : Order := builtOrder ocValid "gid1" t0

def ordValid2 : Order := builtOrder ocValid "gid9" t1

/-- An order timestamped exactly at the start of the 2024-01-15 UTC day
window. -/
def ordAtStart : Order := builtOrder ocValid "gidS" ⟨2024, 1, 15, 0, 0, 0, 0⟩

/-- An order timestamped exactly at the end of the 2024-01-15 UTC day
window. -/
def ordAtEnd : Order := builtOrder ocValid "gidE" ⟨2024, 1, 16, 0, 0, 0, 0⟩

/-- An order timestamped mid-day inside the 2024-01-15 UTC day window. -/
def ordMid : Order := builtOrder ocValid "gidM" ⟨2024, 1, 15, 12, 0, 0, 0⟩

/-- A log holding 1000 mid-day in-window orders followed by the
start-instant order: all 1001 match the window filter, so the
start-instant one falls outside the first 1000 documents. -/
def cappedLog : List Order := List.replicate 1000 ordMid ++ [ordAtStart]

/-- The second candidate of the spec's two-transaction scenario: one
Tahu Gejrot at 12000, paid exactly. -/
def ocTahu : OrderCreate :=
  { items := [⟨"m3", 1, 12000, "Tahu Gejrot"⟩]
    total_amount := 12000
    cash_received := 12000
    cashier_id := "u1"
    cashier_name := "Kasir Utama" }

/-- A concrete in-window order list: 2 × Nasi Goreng Seafood + 1 ×
Soto Ayam, then 1 × Tahu Gejrot. -/
def demoWindowOrders : List Order :=
  [builtOrder ocValid "gidA" t0, builtOrder ocTahu "gidB" t1]

/- Basic lemmas about the builder. -/

lemma create_order_eq_ok (u : User) (oc : OrderCreate) (gid : String)
    (t : DateTime) (h : oc.total_amount ≤ oc.cash_received) :
    create_order u oc gid t = Except.ok (builtOrder oc gid t) := by
  have h' : ¬ (oc.cash_received - oc.total_amount < 0) := by
    rw [sub_neg]
    exact not_lt.mpr h
  simp [create_order, builtOrder, h']

lemma create_order_eq_error (u : User) (oc : OrderCreate) (gid : String)
    (t : DateTime) (h : oc.cash_received < oc.total_amount) :
    create_order u oc gid t = Except.error "Uang yang diterima kurang dari total" := by
  have h' : oc.cash_received - oc.total_amount < 0 := by
    rw [sub_neg]
    exact h
  simp [create_order, h']

lemma create_order_ok_elim (u : User) (oc : OrderCreate) (gid : String)
    (t : DateTime) (o : Order) (h : create_order u oc gid t = Except.ok o) :
    o = builtOrder oc gid t ∧ oc.total_amount ≤ oc.cash_received := by
  by_cases hc : oc.cash_received < oc.total_amount
  · rw [create_order_eq_error u oc gid t hc] at h
    exact absurd h (by simp)
  · push_neg at hc
    rw [create_order_eq_ok u oc gid t hc] at h
    simp only [Except.ok.injEq] at h
    exact ⟨h.symm, hc⟩

lemma submitTransaction_eq_ok (log : List Order) (u : User) (oc : OrderCreate)
    (gid : String) (t : DateTime) (h : oc.total_amount ≤ oc.cash_received) :
    submitTransaction log u oc gid t =
      (log ++ [builtOrder oc gid t], Except.ok (builtOrder oc gid t)) := by
  simp [submitTransaction, create_order_eq_ok u oc gid t h]

lemma submitTransaction_eq_error (log : List Order) (u : User) (oc : OrderCreate)
    (gid : String) (t : DateTime) (h : oc.cash_received < oc.total_amount) :
    submitTransaction log u oc gid t =
      (log, Except.error "Uang yang diterima kurang dari total") := by
  simp [submitTransaction, create_order_eq_error u oc gid t h]

/-- Claim C1 counterexample: the candidate `ocMismatch`, whose supplied
total (999) is inconsistent with its line items (which sum to 10), is
persisted by `submitTransaction` with the inconsistent total stored
verbatim — so the builder neither recomputes the total nor validates it
against the line items before persisting. -/
theorem c1_counterexample :
    (submitTransaction [] demoUser ocMismatch "gidC1" t0).2.isOk = true ∧
    (submitTransaction [] demoUser ocMismatch "gidC1" t0).1.length = 1 ∧
    ((submitTransaction [] demoUser ocMismatch "gidC1" t0).2.toOption.map
      Order.total_amount) = some 999 ∧
    lineItemsTotal ocMismatch.items = 10 ∧ (999 : ℚ) ≠ 10 := by
  have h : ocMismatch.total_amount ≤ ocMismatch.cash_received := by
    norm_num [ocMismatch]
  rw [submitTransaction_eq_ok [] demoUser ocMismatch "gidC1" t0 h]
  refine ⟨rfl, rfl, ?_, ?_, ?_⟩
  · simp [Except.toOption, builtOrder, ocMismatch]
  · norm_num [lineItemsTotal, ocMismatch]
  · norm_num

/-- Claim C1 (amended): for every transaction stored by a successful
`create_order`, the stored total amount is the caller-supplied
`total_amount` verbatim; the code neither recomputes it from the line
items nor validates it, and the only precondition for persisting is
`cash_received ≥ total_amount`. -/
theorem c1_total_taken_verbatim (u : User) (oc : OrderCreate) (gid : String)
    (t : DateTime) (o : Order) (h : create_order u oc gid t = Except.ok o) :
    o.total_amount = oc.total_amount ∧ oc.total_amount ≤ oc.cash_received := by
  obtain ⟨ho, hle⟩ := create_order_ok_elim u oc gid t o h
  subst ho
  exact ⟨rfl, hle⟩

/-- Witness for C1 at the concrete candidate `ocValid`. -/
theorem c1_witness :
    ordValid.total_amount = ocValid.total_amount ∧
    ocValid.total_amount ≤ ocValid.cash_received :=
  c1_total_taken_verbatim demoUser ocValid "gid1" t0 ordValid
    (create_order_eq_ok demoUser ocValid "gid1" t0 (by norm_num [ocValid]))

/-- Claim C2 counterexample: the candidate `ocEmptyItems`, whose line-item
sequence is empty, is not rejected: `submitTransaction` succeeds and
appends a record. -/
theorem c2_counterexample :
    ocEmptyItems.items = [] ∧
    (submitTransaction [] demoUser ocEmptyItems "gidC2" t0).2.isOk = true ∧
    (submitTransaction [] demoUser ocEmptyItems "gidC2" t0).1.length = 1 := by
  have h : ocEmptyItems.total_amount ≤ ocEmptyItems.cash_received := by
    norm_num [ocEmptyItems]
  rw [submitTransaction_eq_ok [] demoUser ocEmptyItems "gidC2" t0 h]
  exact ⟨rfl, rfl, rfl⟩

/-- Claim C2 (amended): `create_order` performs no line-item validation at
all — every candidate with `cash_received ≥ total_amount`, regardless of
an empty item list, non-positive quantities or negative prices, is
persisted with its items stored verbatim; no validation-error path
exists for the line items. -/
theorem c2_no_item_validation (log : List Order) (u : User) (oc : OrderCreate)
    (gid : String) (t : DateTime) (h : oc.total_amount ≤ oc.cash_received) :
    ∃ o, submitTransaction log u oc gid t = (log ++ [o], Except.ok o) ∧
      o.items = oc.items :=
  ⟨builtOrder oc gid t, submitTransaction_eq_ok log u oc gid t h, rfl⟩

/-- Witness for C2 at the concrete candidate `ocWeird`, which has a zero
quantity, a negative price and a negative total. -/
theorem c2_witness :
    ∃ o, submitTransaction [] demoUser ocWeird "gidW" t0 = ([] ++ [o], Except.ok o) ∧
      o.items = ocWeird.items :=
  c2_no_item_validation [] demoUser ocWeird "gidW" t0 (by norm_num [ocWeird])

/-- Claim C3 counterexample: the candidate `ocUnderpaid` has cash (0)
strictly below the total recomputed from its line items (100), yet
`submitTransaction` succeeds and appends a record, because the check
compares cash against the caller-supplied total (0) instead. -/
theorem c3_counterexample :
    ocUnderpaid.cash_received < lineItemsTotal ocUnderpaid.items ∧
    (submitTransaction [] demoUser ocUnderpaid "gidC3" t0).2.isOk = true ∧
    (submitTransaction [] demoUser ocUnderpaid "gidC3" t0).1.length = 1 := by
  have h : ocUnderpaid.total_amount ≤ ocUnderpaid.cash_received := by
    norm_num [ocUnderpaid]
  rw [submitTransaction_eq_ok [] demoUser ocUnderpaid "gidC3" t0 h]
  refine ⟨?_, rfl, rfl⟩
  norm_num [ocUnderpaid, lineItemsTotal]

/-- Claim C3 (amended): for every candidate whose cash received is
strictly less than the caller-supplied `total_amount` (not a recomputed
total), `create_order` fails with the HTTP 400 client error and the
transaction log is unchanged. -/
theorem c3_insufficient_cash_rejected (log : List Order) (u : User)
    (oc : OrderCreate) (gid : String) (t : DateTime)
    (h : oc.cash_received < oc.total_amount) :
    submitTransaction log u oc gid t =
      (log, Except.error "Uang yang diterima kurang dari total") :=
  submitTransaction_eq_error log u oc gid t h

/-- Witness for C3 at the concrete candidate `ocPoor`. -/
theorem c3_witness :
    submitTransaction [] demoUser ocPoor "gidP" t0 =
      ([], Except.error "Uang yang diterima kurang dari total") :=
  c3_insufficient_cash_rejected [] demoUser ocPoor "gidP" t0 (by norm_num [ocPoor])

/-- Claim C4 counterexample: the accepted candidate `ocGap` (cash 20 ≥
line-item total 10) is stored with change 15 = cash − supplied total (5),
not cash − recomputed total = 10. -/
theorem c4_counterexample :
    lineItemsTotal ocGap.items ≤ ocGap.cash_received ∧
    ((create_order demoUser ocGap "gidC4" t0).toOption.map Order.change_amount) =
      some 15 ∧
    ocGap.cash_received - lineItemsTotal ocGap.items = 10 ∧ ((15 : ℚ) ≠ 10) := by
  have h : ocGap.total_amount ≤ ocGap.cash_received := by norm_num [ocGap]
  rw [create_order_eq_ok demoUser ocGap "gidC4" t0 h]
  refine ⟨?_, ?_, ?_, ?_⟩
  · norm_num [ocGap, lineItemsTotal]
  · simp [Except.toOption, builtOrder, ocGap]
    norm_num
  · norm_num [ocGap, lineItemsTotal]
  · norm_num

/-- Claim C4 (amended): for every accepted candidate the stored change
amount equals `cash_received` minus the caller-supplied `total_amount`
(not a total recomputed from the line items), exactly; it is computed
server-side from those two request fields, and `OrderCreate` carries no
change field. -/
theorem c4_change_is_cash_minus_supplied_total (u : User) (oc : OrderCreate)
    (gid : String) (t : DateTime) (o : Order)
    (h : create_order u oc gid t = Except.ok o) :
    o.change_amount = oc.cash_received - oc.total_amount ∧
    o.cash_received = oc.cash_received := by
  obtain ⟨ho, _⟩ := create_order_ok_elim u oc gid t o h
  subst ho
  exact ⟨rfl, rfl⟩

/-- Witness for C4 at the concrete candidate `ocValid`. -/
theorem c4_witness :
    ordValid.change_amount = ocValid.cash_received - ocValid.total_amount ∧
    ordValid.cash_received = ocValid.cash_received :=
  c4_change_is_cash_minus_supplied_total demoUser ocValid "gid1" t0 ordValid
    (create_order_eq_ok demoUser ocValid "gid1" t0 (by norm_num [ocValid]))

/-- Claim C9: `create_order` rejects a candidate — with a client error,
leaving the log unchanged — if and only if the caller-supplied
`cash_received` is strictly below the caller-supplied `total_amount`;
every other candidate is persisted (appended to the log) and returned as
a completed transaction, with no condition on its line items. -/
theorem c9_reject_iff (log : List Order) (u : User) (oc : OrderCreate)
    (gid : String) (t : DateTime) :
    ((submitTransaction log u oc gid t).2.isOk = false ↔
      oc.cash_received < oc.total_amount) ∧
    (oc.cash_received < oc.total_amount →
      submitTransaction log u oc gid t =
        (log, Except.error "Uang yang diterima kurang dari total")) ∧
    (oc.total_amount ≤ oc.cash_received →
      ∃ o, submitTransaction log u oc gid t = (log ++ [o], Except.ok o) ∧
        o.status = "completed") := by
  by_cases hc : oc.cash_received < oc.total_amount
  · rw [submitTransaction_eq_error log u oc gid t hc]
    exact ⟨iff_of_true rfl hc, fun _ => rfl, fun hle => absurd hc (not_lt.mpr hle)⟩
  · push_neg at hc
    rw [submitTransaction_eq_ok log u oc gid t hc]
    exact ⟨iff_of_false (by simp [Except.isOk, Except.toBool]) (not_lt.mpr hc),
      fun hlt => absurd hlt (not_lt.mpr hc), fun _ => ⟨builtOrder oc gid t, rfl, rfl⟩⟩

/-- Witness for C9 at the concrete candidate `ocWeird` (negative total
matched by an equal negative cash: accepted and persisted). -/
theorem c9_witness :
    ((submitTransaction [] demoUser ocWeird "gidN" t0).2.isOk = false ↔
      ocWeird.cash_received < ocWeird.total_amount) ∧
    (ocWeird.cash_received < ocWeird.total_amount →
      submitTransaction [] demoUser ocWeird "gidN" t0 =
        ([], Except.error "Uang yang diterima kurang dari total")) ∧
    (ocWeird.total_amount ≤ ocWeird.cash_received →
      ∃ o, submitTransaction [] demoUser ocWeird "gidN" t0 = ([] ++ [o], Except.ok o) ∧
        o.status = "completed") :=
  c9_reject_iff [] demoUser ocWeird "gidN" t0

/-- Claim C10: the stored operator identity (`cashier_id`, `cashier_name`)
is taken verbatim from the request body, never from the authenticated
user; two successful submissions of the same body by different
authenticated users yield records identical in every field except the
generated identifier and timestamp. -/
theorem c10_operator_fields_from_body (u1 u2 : User) (oc : OrderCreate)
    (g1 g2 : String) (ta tb : DateTime) (o1 o2 : Order)
    (h1 : create_order u1 oc g1 ta = Except.ok o1)
    (h2 : create_order u2 oc g2 tb = Except.ok o2) :
    o1.cashier_id = oc.cashier_id ∧ o1.cashier_name = oc.cashier_name ∧
    o1.id = g1 ∧ o1.order_date = ta ∧ o2.id = g2 ∧ o2.order_date = tb ∧
    o1.items = o2.items ∧ o1.total_amount = o2.total_amount ∧
    o1.payment_method = o2.payment_method ∧ o1.cash_received = o2.cash_received ∧
    o1.change_amount = o2.change_amount ∧ o1.cashier_id = o2.cashier_id ∧
    o1.cashier_name = o2.cashier_name ∧ o1.status = o2.status := by
  obtain ⟨ho1, -⟩ := create_order_ok_elim u1 oc g1 ta o1 h1
  obtain ⟨ho2, -⟩ := create_order_ok_elim u2 oc g2 tb o2 h2
  subst ho1
  subst ho2
  exact ⟨rfl, rfl, rfl, rfl, rfl, rfl, rfl, rfl, rfl, rfl, rfl, rfl, rfl, rfl⟩

/-- Witness for C10: the same body `ocValid` submitted by `demoUser` (a
cashier) and by `demoUser2` (the admin) at different times with different
generated ids. -/
theorem c10_witness :
    ordValid.cashier_id = ocValid.cashier_id ∧
    ordValid.cashier_name = ocValid.cashier_name ∧
    ordValid.id = "gid1" ∧ ordValid.order_date = t0 ∧
    ordValid2.id = "gid9" ∧ ordValid2.order_date = t1 ∧
    ordValid.items = ordValid2.items ∧
    ordValid.total_amount = ordValid2.total_amount ∧
    ordValid.payment_method = ordValid2.payment_method ∧
    ordValid.cash_received = ordValid2.cash_received ∧
    ordValid.change_amount = ordValid2.change_amount ∧
    ordValid.cashier_id = ordValid2.cashier_id ∧
    ordValid.cashier_name = ordValid2.cashier_name ∧
    ordValid.status = ordValid2.status :=
  c10_operator_fields_from_body demoUser demoUser2 ocValid "gid1" "gid9" t0 t1
    ordValid ordValid2
    (create_order_eq_ok demoUser ocValid "gid1" t0 (by norm_num [ocValid]))
    (create_order_eq_ok demoUser2 ocValid "gid9" t1 (by norm_num [ocValid]))

/- C5: the all-time dashboard stats. -/

lemma submitMany_valid_length (n : Nat) :
    ∀ log : List Order,
      (submitMany log (List.replicate n (demoUser, ocValid, "g", t0))).length =
        log.length + n := by
  induction n with
  | zero => intro log; simp [submitMany]
  | succ k ih =>
    intro log
    rw [List.replicate_succ]
    show (submitMany (submitTransaction log demoUser ocValid "g" t0).1 _).length = _
    rw [submitTransaction_eq_ok log demoUser ocValid "g" t0 (by norm_num [ocValid])]
    rw [ih]
    simp only [List.length_append, List.length_cons, List.length_nil]
    omega

set_option maxRecDepth 4000 in
/-- Claim C5 counterexample: after 1001 successful submissions the
`all_time` part of `get_dashboard_stats` reports 1000 orders, not 1001 —
`find().to_list(1000)` bounds the scan at 1000 records, so the report is
not independent of the log size. -/
theorem c5_counterexample :
    (submitMany [] (List.replicate 1001 (demoUser, ocValid, "g", t0))).length = 1001 ∧
    (all_time_stats (submitMany [] (List.replicate 1001 (demoUser, ocValid, "g", t0)))).1 =
      1000 ∧
    (1000 : Nat) ≠ 1001 := by
  have hlen := submitMany_valid_length 1001 []
  simp only [List.length_nil, Nat.zero_add] at hlen
  refine ⟨hlen, ?_, by norm_num⟩
  show ((submitMany [] (List.replicate 1001 (demoUser, ocValid, "g", t0))).take 1000).length =
    1000
  rw [List.length_take, hlen]
  exact min_eq_left (by norm_num)

/-- Claim C5 (amended): as long as at most 1000 transactions have been
submitted, the `all_time` part of `get_dashboard_stats` reports exactly
the number of stored transactions and the exact sum of their stored
totals; beyond 1000 records the `to_list(1000)` bound silently truncates
the scan. -/
theorem c5_all_time_exact (log : List Order) (h : log.length ≤ 1000) :
    all_time_stats log = (log.length, total_revenue log) := by
  unfold all_time_stats
  rw [List.take_of_length_le h]

/-- Witness for C5 on a one-element log. -/
theorem c5_witness :
    all_time_stats [ordValid] = ([ordValid].length, total_revenue [ordValid]) :=
  c5_all_time_exact [ordValid] (by norm_num)

/- C6: the naive next-day computation. -/

/-- Claim C6 fails on the code: on the last day of a month (here
2024-01-31) the day window computation
`today.replace(day=today.day + 1)` asks for day 32 of January, which
`datetime.replace` rejects — `get_today_orders` and
`get_dashboard_stats` raise `ValueError` instead of producing a window. -/
theorem c6_month_end_next_day_undefined :
    todayWindow ⟨2024, 1, 31, 15, 30, 0, 0⟩ = none ∧
    daysInMonth 2024 1 = 31 := by
  exact ⟨rfl, rfl⟩

/- C7: the half-open aggregation window. -/

lemma dtLtB_irrefl (a : DateTime) : dtLtB a a = false := by
  simp [dtLtB]

lemma dtLeB_refl (a : DateTime) : dtLeB a a = true := by
  simp [dtLeB]

lemma todayWindow_dest (now s e : DateTime) (hw : todayWindow now = some (s, e)) :
    s = now.midnight ∧ e = { now.midnight with day := now.midnight.day + 1 } := by
  unfold todayWindow at hw
  cases hrd : now.midnight.replaceDay (now.midnight.day + 1) with
  | none =>
    rw [hrd] at hw
    exact absurd hw (by simp)
  | some tm =>
    rw [hrd] at hw
    simp only [Option.some.injEq, Prod.mk.injEq] at hw
    obtain ⟨hs, he⟩ := hw
    unfold DateTime.replaceDay at hrd
    by_cases hcond : 1 ≤ now.midnight.day + 1 ∧
        now.midnight.day + 1 ≤ daysInMonth now.midnight.year now.midnight.month
    · rw [if_pos hcond] at hrd
      simp only [Option.some.injEq] at hrd
      exact ⟨hs.symm, he.symm.trans hrd.symm⟩
    · rw [if_neg hcond] at hrd
      exact absurd hrd (by simp)

lemma todayWindow_start_lt_end (now s e : DateTime)
    (hw : todayWindow now = some (s, e)) : dtLtB s e = true := by
  obtain ⟨hs, he⟩ := todayWindow_dest now s e hw
  subst hs
  subst he
  simp [dtLtB, DateTime.midnight]

/-- Claim C7 counterexample: in the 2024-01-15 UTC day window, a log with
1000 mid-day in-window orders followed by an order timestamped exactly at
the window's start instant: all 1001 documents match the `$gte`/`$lt`
filter, `to_list(1000)` keeps only the first 1000, and the start-instant
transaction — which the claim says is always included — is dropped from
the summary's order list. -/
theorem c7_counterexample :
    todayWindow t0 = some (⟨2024, 1, 15, 0, 0, 0, 0⟩, ⟨2024, 1, 16, 0, 0, 0, 0⟩) ∧
    ordAtStart ∈ cappedLog ∧
    ordAtStart.order_date = ⟨2024, 1, 15, 0, 0, 0, 0⟩ ∧
    ordAtStart ∉ ordersInWindow cappedLog
      ⟨2024, 1, 15, 0, 0, 0, 0⟩ ⟨2024, 1, 16, 0, 0, 0, 0⟩ := by
  refine ⟨rfl, List.mem_append.mpr (Or.inr (List.mem_singleton.mpr rfl)), rfl, ?_⟩
  have hfil : cappedLog.filter
      (fun o => inWindow ⟨2024, 1, 15, 0, 0, 0, 0⟩ ⟨2024, 1, 16, 0, 0, 0, 0⟩ o.order_date) =
      cappedLog := by
    refine List.filter_eq_self.mpr ?_
    intro a ha
    rcases List.mem_append.mp ha with h | h
    · rw [List.eq_of_mem_replicate h]
      rfl
    · rw [List.mem_singleton.mp h]
      rfl
  unfold ordersInWindow
  rw [hfil]
  unfold cappedLog
  rw [List.take_left' (List.length_replicate 1000 ordMid)]
  intro hmem
  have hid := congrArg Order.id (List.eq_of_mem_replicate hmem)
  simp [ordAtStart, ordMid, builtOrder] at hid

/-- Claim C7 (amended): the aggregation window of `get_today_orders` is
half-open, subject to the query's 1000-document cap — a stored
transaction timestamped exactly at the window's end instant is never in
the returned list, and one timestamped exactly at the start instant is
returned whenever at most 1000 stored transactions match the window
filter. -/
theorem c7_half_open_window_capped (log : List Order) (now s e : DateTime)
    (o : Order) (hw : todayWindow now = some (s, e)) (ho : o ∈ log) :
    (o.order_date = s →
      (log.filter (fun r => inWindow s e r.order_date)).length ≤ 1000 →
      o ∈ ordersInWindow log s e) ∧
    (o.order_date = e → o ∉ ordersInWindow log s e) := by
  constructor
  · intro hts hlen
    have hlt := todayWindow_start_lt_end now s e hw
    unfold ordersInWindow
    rw [List.take_of_length_le hlen]
    rw [List.mem_filter]
    refine ⟨ho, ?_⟩
    rw [hts]
    simp [inWindow, dtLeB_refl, hlt]
  · intro hte hmem
    have hmem' := List.mem_of_mem_take hmem
    rw [List.mem_filter] at hmem'
    have hwin := hmem'.2
    rw [hte] at hwin
    simp [inWindow, dtLtB_irrefl] at hwin

/-- Witness for C7 on the 2024-01-15 UTC day window, with one order at
the start instant (included: only 1 document matches the filter) and one
at the end instant (excluded). -/
theorem c7_witness :
    ordAtStart ∈ ordersInWindow [ordAtStart, ordAtEnd]
      ⟨2024, 1, 15, 0, 0, 0, 0⟩ ⟨2024, 1, 16, 0, 0, 0, 0⟩ ∧
    ordAtEnd ∉ ordersInWindow [ordAtStart, ordAtEnd]
      ⟨2024, 1, 15, 0, 0, 0, 0⟩ ⟨2024, 1, 16, 0, 0, 0, 0⟩ :=
  ⟨(c7_half_open_window_capped [ordAtStart, ordAtEnd] t0 ⟨2024, 1, 15, 0, 0, 0, 0⟩
      ⟨2024, 1, 16, 0, 0, 0, 0⟩ ordAtStart rfl (by simp)).1 rfl (by decide),
   (c7_half_open_window_capped [ordAtStart, ordAtEnd] t0 ⟨2024, 1, 15, 0, 0, 0, 0⟩
      ⟨2024, 1, 16, 0, 0, 0, 0⟩ ordAtEnd rfl (by simp)).2 rfl⟩

/- C8: the popularity ranking. Lemmas about the dict built by `bump`. -/

lemma keys_cons (a : String × Int) (l : List (String × Int)) :
    keys (a :: l) = a.1 :: keys l := rfl

lemma countQty_bump (acc : List (String × Int)) (n : String) (q : Int) (m : String) :
    countQty (bump acc n q) m = countQty acc m + (if n = m then q else 0) := by
  induction acc with
  | nil => simp [bump, countQty]
  | cons a rest ih =>
    by_cases ha : a.1 = n
    · simp only [bump, if_pos ha, countQty]
      rw [ha]
      by_cases hm : n = m
      · simp only [if_pos hm]
        ring
      · simp only [if_neg hm]
        ring
    · simp only [bump, if_neg ha, countQty, ih]
      ring

lemma keys_bump (acc : List (String × Int)) (n : String) (q : Int) :
    keys (bump acc n q) = if n ∈ keys acc then keys acc else keys acc ++ [n] := by
  induction acc with
  | nil => simp [bump, keys]
  | cons a rest ih =>
    by_cases ha : a.1 = n
    · have hmem : n ∈ keys (a :: rest) := by
        rw [keys_cons]
        exact List.mem_cons.mpr (Or.inl ha.symm)
      simp only [bump, if_pos ha, if_pos hmem]
      rfl
    · have hna : n ≠ a.1 := fun h => ha h.symm
      have hmm : (n ∈ keys (a :: rest)) ↔ (n ∈ keys rest) := by
        rw [keys_cons]
        simp [hna]
      simp only [bump, if_neg ha]
      rw [keys_cons, ih]
      by_cases hn : n ∈ keys rest
      · rw [if_pos hn, if_pos (hmm.mpr hn), keys_cons]
      · rw [if_neg hn, if_neg (fun hc => hn (hmm.mp hc)), keys_cons]
        rfl

lemma mem_keys_bump (acc : List (String × Int)) (n : String) (q : Int) (m : String) :
    m ∈ keys (bump acc n q) ↔ m ∈ keys acc ∨ m = n := by
  rw [keys_bump]
  by_cases h : n ∈ keys acc
  · rw [if_pos h]
    exact ⟨Or.inl, fun hm => hm.elim id (fun he => he ▸ h)⟩
  · rw [if_neg h]
    simp

lemma nodup_keys_bump (acc : List (String × Int)) (n : String) (q : Int)
    (h : (keys acc).Nodup) : (keys (bump acc n q)).Nodup := by
  rw [keys_bump]
  by_cases hn : n ∈ keys acc
  · rw [if_pos hn]
    exact h
  · rw [if_neg hn]
    simp [List.nodup_append, h, hn]

lemma countQty_eq_zero_of_not_mem (l : List (String × Int)) (m : String)
    (h : m ∉ keys l) : countQty l m = 0 := by
  induction l with
  | nil => rfl
  | cons a rest ih =>
    simp only [keys, List.map_cons, List.mem_cons, not_or] at h
    have ha : a.1 ≠ m := fun he => h.1 he.symm
    simp only [countQty, if_neg ha, zero_add]
    exact ih (by simpa [keys] using h.2)

lemma snd_eq_countQty (l : List (String × Int)) (hnd : (keys l).Nodup)
    (p : String × Int) (hp : p ∈ l) : p.2 = countQty l p.1 := by
  induction l with
  | nil => cases hp
  | cons a rest ih =>
    simp only [keys, List.map_cons, List.nodup_cons] at hnd
    rcases List.mem_cons.mp hp with h | h
    · subst h
      show p.2 = (if p.1 = p.1 then p.2 else 0) + countQty rest p.1
      rw [countQty_eq_zero_of_not_mem rest p.1 (by simpa [keys] using hnd.1)]
      simp
    · have hkey : p.1 ∈ rest.map Prod.fst := List.mem_map.mpr ⟨p, h, rfl⟩
      have hne : a.1 ≠ p.1 := fun he => hnd.1 (he ▸ hkey)
      simp only [countQty, if_neg hne, zero_add]
      exact ih (by simpa [keys] using hnd.2) h

/- Lemmas lifting the `bump` facts through the nested folds. -/

lemma item_count_eq_fold (orders : List Order) :
    item_count orders = orders.foldl (fun acc o => stepItems acc o.items) [] := rfl

lemma stepItems_append (acc : List (String × Int)) (its1 its2 : List CartItem) :
    stepItems acc (its1 ++ its2) = stepItems (stepItems acc its1) its2 := by
  simp [stepItems, List.foldl_append]

lemma fold_orders_eq_stepItems (orders : List Order) :
    ∀ acc, orders.foldl (fun acc o => stepItems acc o.items) acc =
      stepItems acc (flatItems orders) := by
  induction orders with
  | nil => intro acc; simp [flatItems, stepItems]
  | cons o os ih =>
    intro acc
    simp only [List.foldl_cons, flatItems, List.map_cons, List.flatten_cons]
    rw [ih (stepItems acc o.items), ← stepItems_append]
    rfl

lemma item_count_eq_stepItems (orders : List Order) :
    item_count orders = stepItems [] (flatItems orders) := by
  rw [item_count_eq_fold, fold_orders_eq_stepItems]

lemma countQty_stepItems (its : List CartItem) :
    ∀ (acc : List (String × Int)) (m : String),
      countQty (stepItems acc its) m = countQty acc m + qtySum its m := by
  induction its with
  | nil => intro acc m; simp [stepItems, qtySum]
  | cons it rest ih =>
    intro acc m
    show countQty (stepItems (bump acc it.name it.quantity) rest) m = _
    rw [ih, countQty_bump]
    simp only [qtySum, List.map_cons, List.sum_cons]
    ring

lemma keys_stepItems (its : List CartItem) :
    ∀ acc : List (String × Int),
      keys (stepItems acc its) =
        (its.map CartItem.name).foldl (fun a n => if n ∈ a then a else a ++ [n]) (keys acc) := by
  induction its with
  | nil => intro acc; simp [stepItems]
  | cons it rest ih =>
    intro acc
    show keys (stepItems (bump acc it.name it.quantity) rest) = _
    rw [ih, keys_bump]
    rfl

lemma mem_keys_stepItems (its : List CartItem) :
    ∀ (acc : List (String × Int)) (m : String),
      m ∈ keys (stepItems acc its) ↔ m ∈ keys acc ∨ m ∈ its.map CartItem.name := by
  induction its with
  | nil => intro acc m; simp [stepItems]
  | cons it rest ih =>
    intro acc m
    show m ∈ keys (stepItems (bump acc it.name it.quantity) rest) ↔ _
    rw [ih, mem_keys_bump]
    simp only [List.map_cons, List.mem_cons]
    tauto

lemma nodup_keys_stepItems (its : List CartItem) :
    ∀ acc : List (String × Int),
      (keys acc).Nodup → (keys (stepItems acc its)).Nodup := by
  induction its with
  | nil => intro acc h; simpa [stepItems] using h
  | cons it rest ih =>
    intro acc h
    show (keys (stepItems (bump acc it.name it.quantity) rest)).Nodup
    exact ih _ (nodup_keys_bump acc it.name it.quantity h)

lemma nodup_keys_item_count (orders : List Order) :
    (keys (item_count orders)).Nodup := by
  rw [item_count_eq_stepItems]
  exact nodup_keys_stepItems (flatItems orders) [] (by simp [keys])

lemma countQty_item_count (orders : List Order) (m : String) :
    countQty (item_count orders) m = spec_cumulative_qty orders m := by
  rw [item_count_eq_stepItems, countQty_stepItems]
  simp [countQty, spec_cumulative_qty]

/- Stability of the descending sort. -/

lemma filter_orderedInsert (q : Int) (x : String × Int) (s : List (String × Int)) :
    (List.orderedInsert descOrder x s).filter (qtyEq q) =
      if x.2 = q then x :: s.filter (qtyEq q) else s.filter (qtyEq q) := by
  induction s with
  | nil =>
    by_cases hx : x.2 = q <;> simp [List.orderedInsert, qtyEq, hx]
  | cons b t ih =>
    simp only [List.orderedInsert]
    by_cases hr : descOrder x b
    · rw [if_pos hr]
      by_cases hx : x.2 = q <;> simp [List.filter_cons, qtyEq, hx]
    · rw [if_neg hr]
      rw [List.filter_cons, ih]
      have hlt : x.2 < b.2 := not_le.mp hr
      by_cases hx : x.2 = q
      · have hbq : b.2 ≠ q := by
          intro hb
          rw [hx, hb] at hlt
          exact lt_irrefl q hlt
        simp [qtyEq, hx, hbq, List.filter_cons]
      · by_cases hb : b.2 = q <;> simp [qtyEq, hx, hb, List.filter_cons]

lemma filter_insertionSort (q : Int) (l : List (String × Int)) :
    (List.insertionSort descOrder l).filter (qtyEq q) = l.filter (qtyEq q) := by
  induction l with
  | nil => rfl
  | cons x t ih =>
    show (List.orderedInsert descOrder x (List.insertionSort descOrder t)).filter (qtyEq q) = _
    rw [filter_orderedInsert, ih]
    by_cases hx : x.2 = q <;> simp [List.filter_cons, qtyEq, hx]

/-- Claim C8: the popularity list of `get_today_orders` (i) assigns every
listed name its cumulative quantity over every line item of every
in-window transaction, (ii) is sorted by quantity descending, (iii) is
stable — entries with equal quantities keep the dict's first-seen
(insertion) order, for every quantity `q` — with the dict keys being
exactly the item names of the window in first-occurrence order, and (iv)
is truncated to the first 5 entries of the sorted list. -/
theorem c8_popularity (orders : List Order) (p : String × Int)
    (hp : p ∈ popular_items orders) (q : Int) (m : String) :
    p.2 = spec_cumulative_qty orders p.1 ∧
    (popular_items orders).Sorted descOrder ∧
    (sortedCounts orders).filter (qtyEq q) = (item_count orders).filter (qtyEq q) ∧
    (m ∈ keys (item_count orders) ↔ m ∈ (flatItems orders).map CartItem.name) ∧
    keys (item_count orders) = firstSeen ((flatItems orders).map CartItem.name) ∧
    (popular_items orders).length = min 5 (item_count orders).length := by
  refine ⟨?_, ?_, ?_, ?_, ?_, ?_⟩
  · have hp1 : p ∈ sortedCounts orders := List.mem_of_mem_take hp
    have hp2 : p ∈ item_count orders := (List.mem_insertionSort descOrder).mp hp1
    rw [snd_eq_countQty (item_count orders) (nodup_keys_item_count orders) p hp2]
    exact countQty_item_count orders p.1
  · exact List.Pairwise.sublist (List.take_sublist 5 (sortedCounts orders))
      (List.sorted_insertionSort descOrder (item_count orders))
  · exact filter_insertionSort q (item_count orders)
  · rw [item_count_eq_stepItems, mem_keys_stepItems]
    simp [keys]
  · rw [item_count_eq_stepItems, keys_stepItems]
    rfl
  · rw [popular_items, List.length_take, sortedCounts, List.length_insertionSort]

/-- Witness for C8 on the spec's two-transaction scenario: the top entry
is Nasi Goreng Seafood with quantity 2, ahead of the two single-unit
items, which keep first-seen order. -/
theorem c8_witness :
    ("Nasi Goreng Seafood", (2 : Int)).2 = spec_cumulative_qty demoWindowOrders "Nasi Goreng Seafood" ∧
    (popular_items demoWindowOrders).Sorted descOrder ∧
    (sortedCounts demoWindowOrders).filter (qtyEq 1) =
      (item_count demoWindowOrders).filter (qtyEq 1) ∧
    ("Soto Ayam" ∈ keys (item_count demoWindowOrders) ↔
      "Soto Ayam" ∈ (flatItems demoWindowOrders).map CartItem.name) ∧
    keys (item_count demoWindowOrders) =
      firstSeen ((flatItems demoWindowOrders).map CartItem.name) ∧
    (popular_items demoWindowOrders).length = min 5 (item_count demoWindowOrders).length :=
  c8_popularity demoWindowOrders ("Nasi Goreng Seafood", 2) (by decide) 1 "Soto Ayam"

end Kasir
